import Mathlib

/-!
Verification development for the FreshService ticket retrieval core.

Shallow embedding of the Python sources:
  search_intent.py, search_tickets.py, app.py, search_context.py.
Python floats are modelled as rationals; Python sets of strings as lists
(only emptiness is observed by the modelled functions); dictionaries as
structures with one optional field per key actually read.  External
collaborators (HTTP session, HTML cleaner, name caches) are modelled as
function parameters (oracles).
-/

namespace FreshService

/-! ### search_intent.py -/

/-- Python truthiness of an optional string: None and the empty string are
falsy. -/
def optTruthyStr : Option String → Bool
  | none => false
  | some s => !s.isEmpty

/-- Python str.strip(): drop leading and trailing whitespace. -/
def pyStrip (s : String) : String :=
  ⟨((s.data.dropWhile Char.isWhitespace).reverse.dropWhile Char.isWhitespace).reverse⟩

/-- Python str.lower(): lower-case every character. -/
def pyLower (s : String) : String :=
  ⟨s.data.map Char.toLower⟩

/-- QueryIntent dataclass from search_intent.py.  tokens and keywords are
Python sets of strings; the functions modelled here only observe emptiness,
so they are embedded as lists. -/
structure QueryIntent where
  raw_query : String
  tokens : List String
  keywords : List String
  category : Option String := none
  subcategory : Option String := none
  item : Option String := none

/-- has_category_path property: any of the three path fields is truthy. -/
def QueryIntent.has_category_path (i : QueryIntent) : Bool :=
  optTruthyStr i.category || optTruthyStr i.subcategory || optTruthyStr i.item

/-- ResultSignals dataclass from search_intent.py. -/
structure ResultSignals where
  token_match : Bool
  category_match : Bool
  keyword_hits : Nat

/-! ### search_tickets.py: scoring constants and the distance scorer -/

def TOKEN_BONUS : ℚ := 0.05
def TOKEN_PENALTY : ℚ := 0.04
def CATEGORY_BONUS : ℚ := 0.08
def CATEGORY_PENALTY : ℚ := 0.05
def KEYWORD_BONUS : ℚ := 0.015
def KEYWORD_CAP : Nat := 3

def QUERY_TOP_N_DEFAULT : ℤ := 1000
def QUERY_TOP_N_CAP : ℤ := 2000
def QUERY_TOP_N_MIN : ℤ := 50

/-- Embedding of search_tickets._adjust_distance.  Accumulates a bonus and a
penalty exactly as the source does, then clamps the adjusted distance at
zero. -/
def _adjust_distance (dist : ℚ) (intent : QueryIntent) (signals : ResultSignals) : ℚ :=
  let bp0 : ℚ × ℚ := (0, 0)
  let bp1 : ℚ × ℚ :=
    if intent.tokens ≠ [] then
      if signals.token_match then (bp0.1 + TOKEN_BONUS, bp0.2)
      else (bp0.1, bp0.2 + TOKEN_PENALTY)
    else bp0
  let bp2 : ℚ × ℚ :=
    if intent.has_category_path then
      if signals.category_match then (bp1.1 + CATEGORY_BONUS, bp1.2)
      else (bp1.1, bp1.2 + CATEGORY_PENALTY)
    else bp1
  let bonus : ℚ :=
    if signals.keyword_hits ≠ 0 then
      bp2.1 + ((min signals.keyword_hits KEYWORD_CAP : ℕ) : ℚ) * KEYWORD_BONUS
    else bp2.1
  let adjusted := dist + bp2.2 - bonus
  if adjusted > 0 then adjusted else 0

/-! ### search_tickets.py: strict filters -/

/-- The relevance sub-map attached to a result metadata dict by
_rerank_results: the two boolean match flags read back by the strict
filters. -/
structure Relevance where
  token_match : Bool
  category_match : Bool

/-- Result metadata as read by _apply_strict_filters: the relevance sub-map
may be absent, in which case both flag lookups are falsy. -/
structure SRMeta where
  relevance : Option Relevance := none

def SRMeta.tokenMatchTruthy (m : SRMeta) : Bool :=
  match m.relevance with
  | none => false
  | some r => r.token_match

def SRMeta.categoryMatchTruthy (m : SRMeta) : Bool :=
  match m.relevance with
  | none => false
  | some r => r.category_match

/-- Embedding of search_tickets._apply_strict_filters over
(document, metadata, distance) triples. -/
def _apply_strict_filters (results : List (String × SRMeta × ℚ)) (intent : QueryIntent)
    (require_token require_category : Bool) : List (String × SRMeta × ℚ) :=
  let f1 :=
    if require_token ∧ intent.tokens ≠ [] then
      results.filter (fun r => r.2.1.tokenMatchTruthy)
    else results
  let f2 :=
    if require_category ∧ intent.has_category_path then
      f1.filter (fun r => r.2.1.categoryMatchTruthy)
    else f1
  f2

/-! ### search_tickets.py: result-count bound -/

/-- Embedding of search_tickets._compute_n_results.  The collection count is
an oracle: none models coll.count() raising, some c a returned count. -/
def _compute_n_results (count : Option ℤ) (top_n : Option ℤ) : ℤ :=
  match top_n with
  | some t =>
    if 0 < t then max QUERY_TOP_N_MIN (min t QUERY_TOP_N_CAP)
    else
      match count with
      | some c => if 0 < c then max QUERY_TOP_N_MIN (min c QUERY_TOP_N_DEFAULT)
                  else QUERY_TOP_N_DEFAULT
      | none => QUERY_TOP_N_DEFAULT
  | none =>
    match count with
    | some c => if 0 < c then max QUERY_TOP_N_MIN (min c QUERY_TOP_N_DEFAULT)
                else QUERY_TOP_N_DEFAULT
    | none => QUERY_TOP_N_DEFAULT

/-! ### app.py: percentile bucketer -/

/-- Python round() on a rational: round half to even. -/
def pyRoundHalfEven (q : ℚ) : ℤ :=
  let f := ⌊q⌋
  let r := q - f
  if r < 1/2 then f
  else if 1/2 < r then f + 1
  else if Even f then f else f + 1

/-- The four UX buckets returned by app._bucket_by_percentile. -/
structure Buckets (α : Type) where
  most : List α
  similar : List α
  related : List α
  loose : List α

/-- Embedding of app._bucket_by_percentile.  A Python slice l from a to b is
(l.take b).drop a; the cutoff literals 0.20, 0.50, 0.80 are modelled as the
exact rationals. -/
def _bucket_by_percentile {α : Type} (results : List α) : Buckets α :=
  if results.isEmpty then ⟨[], [], [], []⟩
  else
    let n := results.length
    let top_end : Nat := max 1 (pyRoundHalfEven ((n : ℚ) * 0.20)).toNat
    let sim_end : Nat := max top_end (pyRoundHalfEven ((n : ℚ) * 0.50)).toNat
    let rel_end : Nat := max sim_end (pyRoundHalfEven ((n : ℚ) * 0.80)).toNat
    ⟨results.take top_end,
     (results.take sim_end).drop top_end,
     (results.take rel_end).drop sim_end,
     results.drop rel_end⟩

/-! ### search_context.py: data model -/

/-- A dynamically typed scalar read out of a metadata dictionary: absent or
None, an integer (Python bool is an int and is modelled separately), or a
string. -/
inductive PyScalar where
  | pynone
  | pybool (b : Bool)
  | pyint (n : ℤ)
  | pystr (s : String)
deriving DecidableEq

/-- Python truthiness of a scalar. -/
def PyScalar.truthy : PyScalar → Bool
  | .pynone => false
  | .pybool b => b
  | .pyint n => n ≠ 0
  | .pystr s => !s.isEmpty

/-- Python int(x) under try/except: None raises (→ none), bools and ints
coerce, strings are parsed after stripping whitespace. -/
def PyScalar.toIntOpt : PyScalar → Option ℤ
  | .pynone => none
  | .pybool b => some (if b then 1 else 0)
  | .pyint n => some n
  | .pystr s => (pyStrip s).toInt?

/-- Python str(x) for the scalars above. -/
def PyScalar.strRepr : PyScalar → String
  | .pynone => "None"
  | .pybool true => "True"
  | .pybool false => "False"
  | .pyint n => toString n
  | .pystr s => s

/-- ConversationNote dataclass from search_context.py. -/
structure ConversationNote where
  body : String
  is_private : Bool
  author : Option String
  created_at : Option String
deriving DecidableEq

/-- TicketContext dataclass from search_context.py. -/
structure TicketContext where
  ticket_id : ℤ
  subject : String
  description : String
  category : Option String
  subcategory : Option String
  item : Option String
  group_id : Option ℤ
  group_name : Option String
  responder_name : Option String
  distance : ℚ
  notes : List ConversationNote
  notes_incomplete : Bool
deriving DecidableEq

/-- One entry of a conversations value stored in search metadata: either a
dictionary (only body_text and body are read) or any other value, read via
str(). -/
inductive ConvEntry where
  | edict (body_text : Option String) (body : Option String)
  | eother (str_repr : String)
deriving DecidableEq

/-- The conversations value of a search metadata dictionary: absent or None,
a string, or a list of entries. -/
inductive ConvVal where
  | cnone
  | cstr (s : String)
  | clist (entries : List ConvEntry)
deriving DecidableEq

/-- Search-result metadata dictionary, one optional field per key read by
search_context.py and search_tickets._resolve_assigned_agent. -/
structure Meta where
  ticket_id : PyScalar := .pynone
  subject : Option String := none
  category : Option String := none
  subcategory : Option String := none
  sub_category : Option String := none
  item : Option String := none
  item_category : Option String := none
  group_id : PyScalar := .pynone
  group_name : Option String := none
  responder_name : Option String := none
  responder_id : PyScalar := .pynone
  conversations : ConvVal := .cnone
deriving DecidableEq

/-- A (document, metadata, distance) search-result triple. -/
abbrev SearchResult := String × Meta × ℚ

/-! ### search_context.py: small string helpers -/

/-- search_context._safe_trim on a string-or-None value. -/
def _safe_trim (v : Option String) : Option String :=
  match v with
  | none => none
  | some s => let t := pyStrip s; if t.isEmpty then none else some t

/-- _safe_trim applied to a value known to be a string. -/
def safeTrimStr (s : String) : Option String :=
  let t := pyStrip s
  if t.isEmpty then none else some t

/-- search_context._safe_int: int(value) under try/except. -/
def _safe_int (v : PyScalar) : Option ℤ := v.toIntOpt

/-- Python a-or-b on two optional strings: the first operand if truthy,
otherwise the second. -/
def pyOrOpt (a b : Option String) : Option String :=
  if optTruthyStr a then a else b

/-- Python a-or-b-or-empty chaining on optional strings ending in the empty
string literal. -/
def pyOrStr (a b : Option String) : String :=
  if optTruthyStr a then a.getD ""
  else if optTruthyStr b then b.getD ""
  else ""

/-- Python text.split() then a single-space join, as in
search_context._clean_text. -/
def joinWhitespaceSplit (s : String) : String :=
  " ".intercalate ((s.split Char.isWhitespace).filter (fun w => !w.isEmpty))

/-- search_context._clean_text; the external HTML-to-text converter from
text_cleaning.py is an oracle parameter. -/
def _clean_text (htmlToText : String → String) (raw : String) : String :=
  if raw.isEmpty then "" else joinWhitespaceSplit (htmlToText raw)

/-- Python str.rstrip(). -/
def pyRstrip (s : String) : String :=
  ⟨(s.data.reverse.dropWhile Char.isWhitespace).reverse⟩

/-- search_context._truncate: texts over the limit are cut to limit - 1
characters, right-stripped, and ellipsized. -/
def _truncate (text : String) (limit : Nat) : String :=
  if text.length ≤ limit then text
  else pyRstrip (⟨text.data.take (limit - 1)⟩ : String) ++ "…"

/-! ### search_context.py: API payload model and context builders -/

/-- Fields of the ticket object in a Freshservice API payload that
_build_context_from_api reads.  An unparsable group_id behaves exactly like
an absent one and is collapsed into none. -/
structure FSTicket where
  id : Option ℤ := none
  subject : Option String := none
  description_text : Option String := none
  description : Option String := none
  category : Option String := none
  subcategory : Option String := none
  sub_category : Option String := none
  item : Option String := none
  item_category : Option String := none
  group_id : Option ℤ := none
  group_name : Option String := none
  responder_name : Option String := none
  responder_id : Option ℤ := none
deriving DecidableEq

/-- One conversation object in a Freshservice API payload. -/
structure ApiConv where
  body_text : Option String := none
  body : Option String := none
  priv : PyScalar := .pynone
  user_name : Option String := none
  to_emails : Option String := none
  created_at : Option String := none
deriving DecidableEq

/-- responder_name computation of _build_context_from_api:
_safe_trim(ticket.get(responder_name) or ticket.get(responder_id)). -/
def apiResponderName (rn : Option String) (rid : Option ℤ) : Option String :=
  if optTruthyStr rn then safeTrimStr (rn.getD "")
  else
    match rid with
    | none => none
    | some n => safeTrimStr (toString n)

/-- Embedding of search_context._build_context_from_api.  htmlToText models
text_cleaning.html_to_text; groupLookup models agent_resolver.get_group_name. -/
def _build_context_from_api (htmlToText : String → String) (groupLookup : ℤ → Option String)
    (ticket : FSTicket) (conversations : List ApiConv) (distance : ℚ) : TicketContext :=
  let subject := pyStrip (ticket.subject.getD "")
  let description := _clean_text htmlToText (pyOrStr ticket.description_text ticket.description)
  let notes : List ConversationNote :=
    conversations.filterMap (fun conv =>
      let body := pyOrStr conv.body_text conv.body
      if body.isEmpty then none
      else
        some
          { body := _truncate (_clean_text htmlToText body) 600
            is_private := conv.priv.strRepr == "True" || conv.priv == .pybool true
            author := _safe_trim (pyOrOpt conv.user_name conv.to_emails)
            created_at := conv.created_at })
  let group_name0 := _safe_trim ticket.group_name
  let group_id_int : Option ℤ := ticket.group_id
  let group_name :=
    match ticket.group_id with
    | some gid => if group_name0.isNone then groupLookup gid else group_name0
    | none => group_name0
  { ticket_id := ticket.id.getD 0
    subject := subject
    description := description
    category := _safe_trim ticket.category
    subcategory := _safe_trim (pyOrOpt ticket.subcategory ticket.sub_category)
    item := _safe_trim (pyOrOpt ticket.item ticket.item_category)
    group_id := group_id_int
    group_name := group_name
    responder_name := apiResponderName ticket.responder_name ticket.responder_id
    distance := distance
    notes := notes
    notes_incomplete := false }

/-- Embedding of search_context._fallback_ticket_context: a metadata-only
context with notes_incomplete set. -/
def _fallback_ticket_context (htmlToText : String → String)
    (doc : String) (meta : Meta) (distance : ℚ) : TicketContext :=
  let notes : List ConversationNote :=
    match meta.conversations with
    | .cnone => []
    | .cstr s =>
      if s.isEmpty then []
      else
        [{ body := _truncate (_clean_text htmlToText s) 600
           is_private := false, author := none, created_at := none }]
    | .clist entries =>
      if entries.isEmpty then []
      else
        entries.filterMap (fun e =>
          let raw :=
            match e with
            | .edict bt b => pyOrStr bt b
            | .eother s => s
          let body := _truncate (_clean_text htmlToText raw) 600
          if body.isEmpty then none
          else some { body := body, is_private := false, author := none, created_at := none })
  { ticket_id := (if meta.ticket_id.truthy then meta.ticket_id else .pyint 0).toIntOpt.getD 0
    subject := (_safe_trim meta.subject).getD ""
    description := doc
    category := _safe_trim meta.category
    subcategory := _safe_trim (pyOrOpt meta.subcategory meta.sub_category)
    item := _safe_trim (pyOrOpt meta.item meta.item_category)
    group_id := _safe_int meta.group_id
    group_name := _safe_trim meta.group_name
    responder_name := _safe_trim meta.responder_name
    distance := distance
    notes := notes
    notes_incomplete := true }

/-! ### search_context.py: fetch with retries and the gatherer -/

/-- Outcome of one HTTP attempt against the ticket endpoint: a parsed
payload, a rate-limit status (429 or 503), or any other error. -/
inductive FetchAttempt where
  | success (ticket : FSTicket) (conversations : List ApiConv)
  | http429
  | http503
  | failure

def FetchAttempt.isSuccess : FetchAttempt → Bool
  | .success _ _ => true
  | _ => false

/-- Embedding of search_context._fetch_ticket_context: three attempts; a
429/503 or any error retries (with backoff, not modelled) until the last
attempt, which raises.  attemptOutcome gives the outcome of each numbered
attempt. -/
def _fetch_ticket_context (htmlToText : String → String) (groupLookup : ℤ → Option String)
    (attemptOutcome : Nat → FetchAttempt) (distance : ℚ) : Except Unit TicketContext :=
  match attemptOutcome 0 with
  | .success t cs => .ok (_build_context_from_api htmlToText groupLookup t cs distance)
  | _ =>
    match attemptOutcome 1 with
    | .success t cs => .ok (_build_context_from_api htmlToText groupLookup t cs distance)
    | _ =>
      match attemptOutcome 2 with
      | .success t cs => .ok (_build_context_from_api htmlToText groupLookup t cs distance)
      | _ => .error ()

/-- The ticket id of a result as resolved by the gatherer loop: the
metadata value must be truthy and int-coercible. -/
def resolvedTicketId (meta : Meta) : Option ℤ :=
  if meta.ticket_id.truthy then meta.ticket_id.toIntOpt else none

/-- The gatherer collection loop: scan results in order, skip items without
a resolvable ticket id, stop once the limit many fetchable items are
collected. -/
def ticketsToFetch : List SearchResult → Nat → List (ℤ × SearchResult)
  | _, 0 => []
  | [], _ + 1 => []
  | r :: rest, m + 1 =>
    match resolvedTicketId r.2.1 with
    | some tid => (tid, r) :: ticketsToFetch rest m
    | none => ticketsToFetch rest (m + 1)

/-- The effective limit of gather_ticket_contexts: the default when the
limit is None, otherwise max 0 limit, capped at the hard cap.
maxSimilar models config.MAX_SIMILAR_TICKETS. -/
def safeLimit (maxSimilar : Nat) (limit : Option ℤ) : Nat :=
  match limit with
  | none => maxSimilar
  | some l => min (max 0 l).toNat maxSimilar

/-- Embedding of search_context.gather_ticket_contexts.  fetch gives the
per-attempt outcome for each ticket id; order models the nondeterministic
as_completed collection order (theorems that need it assume it permutes its
input); the final list is stably sorted ascending by distance. -/
def gather_ticket_contexts (maxSimilar : Nat) (htmlToText : String → String)
    (groupLookup : ℤ → Option String) (fetch : ℤ → Nat → FetchAttempt)
    (order : List TicketContext → List TicketContext)
    (results : List SearchResult) (limit : Option ℤ) : List TicketContext :=
  let toFetch := ticketsToFetch results (safeLimit maxSimilar limit)
  if toFetch.isEmpty then []
  else
    let contexts := order (toFetch.map (fun item =>
      match _fetch_ticket_context htmlToText groupLookup (fetch item.1) item.2.2.2 with
      | .ok c => c
      | .error _ => _fallback_ticket_context htmlToText item.2.1 item.2.2.1 item.2.2.2))
    List.insertionSort (fun a b => a.distance ≤ b.distance) contexts

/-! ### search_tickets.py: assigned-agent resolution -/

/-- Embedding of search_tickets._resolve_assigned_agent.  fetchRespId models
_fetch_ticket_responder_id and fetchAgent models _fetch_agent_name (both
network-backed, always-total oracles). -/
def _resolve_assigned_agent (fetchRespId : ℤ → Option ℤ) (fetchAgent : ℤ → String)
    (meta : Meta) : Meta :=
  let name := pyStrip (meta.responder_name.getD "")
  if name ≠ "" ∧ pyLower name ≠ "unknown" ∧ pyLower name ≠ "unassigned" then meta
  else
    let rid0 := meta.responder_id.toIntOpt
    let rid :=
      match rid0 with
      | some r => some r
      | none =>
        match meta.ticket_id.toIntOpt with
        | some tid => fetchRespId tid
        | none => none
    match rid with
    | none => meta
    | some r =>
      let resolved := pyStrip (fetchAgent r)
      if resolved ≠ "" ∧ pyLower resolved ≠ "unknown" ∧ pyLower resolved ≠ "unassigned" then
        { meta with responder_name := some resolved }
      else meta

/-! ## Theorems -/

/-- Signals with no matches, as in claim C1. -/
def noMatchSignals : ResultSignals := ⟨false, false, 0⟩

/-- C1 counterexample input: an intent with one token and no category path. -/
def exIntentC1 : QueryIntent :=
  { raw_query := "teams", tokens := ["teams"], keywords := [] }

/-- C1 counterexample input: full-match signals (token match, one keyword
hit; the intent has no category path). -/
def exSigC1 : ResultSignals := ⟨true, false, 1⟩

/-- C1 (counterexample): at distance 0 with an intent holding one token and
full-match signals, _adjust_distance returns 0, which is not strictly less
than the input distance 0 — the claim fails at d = 0 because of the
non-negative clamp. -/
theorem adjust_distance_full_match_at_zero_counterexample :
    (0 : ℚ) ≤ 0 ∧ exIntentC1.tokens ≠ [] ∧ exSigC1.token_match = true
    ∧ (exIntentC1.has_category_path = true → exSigC1.category_match = true)
    ∧ exSigC1.keyword_hits ≠ 0
    ∧ _adjust_distance 0 exIntentC1 exSigC1 = 0
    ∧ ¬ (_adjust_distance 0 exIntentC1 exSigC1 < 0) := by
  have hval : _adjust_distance 0 exIntentC1 exSigC1 = 0 := by
    norm_num [_adjust_distance, exIntentC1, exSigC1, QueryIntent.has_category_path,
      optTruthyStr, TOKEN_BONUS, KEYWORD_BONUS, KEYWORD_CAP]
  refine ⟨le_refl 0, by simp [exIntentC1], rfl, ?_, by simp [exSigC1], hval, ?_⟩
  · intro h
    simp [exIntentC1, QueryIntent.has_category_path, optTruthyStr] at h
  · rw [hval]
    norm_num

/-- C1 (amended): for every distance d ≥ 0 and intent with at least one
token, no-match signals yield an adjusted distance strictly greater than d;
and for every strictly positive d, full-match signals (token match, category
match whenever the intent has a category path, at least one keyword hit)
yield an adjusted distance strictly less than d.  At d = 0 the full-match
side fails because the result is clamped at zero. -/
theorem adjust_distance_penalty_reward (d : ℚ) (intent : QueryIntent) (sig : ResultSignals)
    (hd : 0 ≤ d) (htok : intent.tokens ≠ []) :
    d < _adjust_distance d intent noMatchSignals
    ∧ (0 < d → sig.token_match = true →
        (intent.has_category_path = true → sig.category_match = true) →
        sig.keyword_hits ≠ 0 → _adjust_distance d intent sig < d) := by
  have hkb : (0 : ℚ) < KEYWORD_BONUS := by norm_num [KEYWORD_BONUS]
  have htp : (0 : ℚ) < TOKEN_PENALTY := by norm_num [TOKEN_PENALTY]
  have hcp : (0 : ℚ) < CATEGORY_PENALTY := by norm_num [CATEGORY_PENALTY]
  have htb : (0 : ℚ) < TOKEN_BONUS := by norm_num [TOKEN_BONUS]
  have hcb : (0 : ℚ) < CATEGORY_BONUS := by norm_num [CATEGORY_BONUS]
  constructor
  · by_cases hcat : intent.has_category_path = true
    · simp only [_adjust_distance, noMatchSignals, htok, hcat, ne_eq, not_false_eq_true,
        Bool.false_eq_true, if_true, if_false, ite_true, ite_false, not_true_eq_false,
        eq_self_iff_true]
      split <;> linarith
    · simp only [_adjust_distance, noMatchSignals, htok, hcat, ne_eq, not_false_eq_true,
        Bool.false_eq_true, if_true, if_false, ite_true, ite_false, not_true_eq_false,
        eq_self_iff_true]
      split <;> linarith
  · intro h0 htm hci hkw
    have h1 : 1 ≤ sig.keyword_hits := Nat.one_le_iff_ne_zero.mpr hkw
    have hmin : (1 : ℚ) ≤ ((min sig.keyword_hits KEYWORD_CAP : ℕ) : ℚ) := by
      have h2 : 1 ≤ min sig.keyword_hits KEYWORD_CAP :=
        le_min h1 (by norm_num [KEYWORD_CAP])
      exact_mod_cast h2
    have hkwc : KEYWORD_BONUS ≤ ((min sig.keyword_hits KEYWORD_CAP : ℕ) : ℚ) * KEYWORD_BONUS := by
      nlinarith
    by_cases hcat : intent.has_category_path = true
    · have hcm : sig.category_match = true := hci hcat
      simp only [_adjust_distance, htok, hcat, htm, hcm, hkw, ne_eq, not_false_eq_true,
        if_true, if_false, ite_true, ite_false]
      split <;> linarith
    · simp only [_adjust_distance, htok, hcat, htm, hkw, ne_eq, not_false_eq_true,
        Bool.false_eq_true, if_true, if_false, ite_true, ite_false]
      split <;> linarith

/-- Witness for adjust_distance_penalty_reward at d = 1/2 with the C1
example intent and signals. -/
theorem adjust_distance_penalty_reward_witness :
    (1/2 : ℚ) < _adjust_distance (1/2) exIntentC1 noMatchSignals
    ∧ _adjust_distance (1/2) exIntentC1 exSigC1 < 1/2 := by
  have h := adjust_distance_penalty_reward (1/2) exIntentC1 exSigC1
    (by norm_num) (by decide)
  exact ⟨h.1, h.2 (by norm_num) (by decide) (by decide) (by decide)⟩

/-- C5: each strict filter is a no-op when the intent lacks the
corresponding signal: with no category path the category requirement changes
nothing, with no tokens the token requirement changes nothing, and with
neither signal the filters return the input list unchanged for any flags. -/
theorem apply_strict_filters_noop_without_signal (results : List (String × SRMeta × ℚ))
    (intent : QueryIntent) (rt rc : Bool) :
    (intent.has_category_path = false →
       _apply_strict_filters results intent rt true
         = _apply_strict_filters results intent rt false)
    ∧ (intent.tokens = [] →
       _apply_strict_filters results intent true rc
         = _apply_strict_filters results intent false rc)
    ∧ (intent.tokens = [] → intent.has_category_path = false →
       _apply_strict_filters results intent rt rc = results) := by
  refine ⟨fun hcat => ?_, fun htok => ?_, fun htok hcat => ?_⟩
  · simp [_apply_strict_filters, hcat]
  · simp [_apply_strict_filters, htok]
  · simp [_apply_strict_filters, htok, hcat]

/-- C5 witness inputs: one result carrying a relevance map, an intent with
no tokens and no category path. -/
def exResultsC5 : List (String × SRMeta × ℚ) :=
  [("doc1", { relevance := some ⟨true, false⟩ }, 1/5)]

def exIntentC5 : QueryIntent := { raw_query := "q", tokens := [], keywords := ["q"] }

/-- Witness for apply_strict_filters_noop_without_signal on a concrete
result list and signal-free intent. -/
theorem apply_strict_filters_noop_witness :
    _apply_strict_filters exResultsC5 exIntentC5 true true = exResultsC5 := by
  exact (apply_strict_filters_noop_without_signal exResultsC5 exIntentC5 true true).2.2
    rfl (by decide)

/-- C6 (counterexample): the token penalty (0.04) is not greater than the
maximal keyword bonus component (0.015 * 3 = 0.045), refuting the claimed
ordering of the scoring constants. -/
theorem scoring_weights_claim_counterexample :
    TOKEN_PENALTY < KEYWORD_BONUS * (KEYWORD_CAP : ℚ)
    ∧ ¬ (KEYWORD_BONUS * (KEYWORD_CAP : ℚ) < TOKEN_PENALTY) := by
  norm_num [TOKEN_PENALTY, KEYWORD_BONUS, KEYWORD_CAP]

/-- C6 (amended): the category bonus exceeds the token bonus and the
category penalty exceeds the token penalty; the token bonus, category bonus
and category penalty all exceed the maximal keyword bonus component
(per-keyword bonus times the keyword cap); the token penalty exceeds the
per-keyword bonus but not that capped component. -/
theorem scoring_weights_order :
    TOKEN_BONUS < CATEGORY_BONUS
    ∧ TOKEN_PENALTY < CATEGORY_PENALTY
    ∧ KEYWORD_BONUS * (KEYWORD_CAP : ℚ) < TOKEN_BONUS
    ∧ KEYWORD_BONUS * (KEYWORD_CAP : ℚ) < CATEGORY_BONUS
    ∧ KEYWORD_BONUS * (KEYWORD_CAP : ℚ) < CATEGORY_PENALTY
    ∧ KEYWORD_BONUS < TOKEN_PENALTY := by
  norm_num [TOKEN_BONUS, TOKEN_PENALTY, CATEGORY_BONUS, CATEGORY_PENALTY,
    KEYWORD_BONUS, KEYWORD_CAP]

/-- C7 (counterexample): with no explicit top_n and a collection count of
1500, the code returns the default 1000, not the count clamped into the
claimed [min_floor, hard_cap] = [50, 2000] bounds, which would be 1500. -/
theorem compute_n_results_derived_cap_counterexample :
    _compute_n_results (some 1500) none = QUERY_TOP_N_DEFAULT
    ∧ _compute_n_results (some 1500) none
        ≠ max QUERY_TOP_N_MIN (min 1500 QUERY_TOP_N_CAP) := by
  decide

/-- C7 (amended): a supplied positive top_n is clamped into
[QUERY_TOP_N_MIN, QUERY_TOP_N_CAP]; otherwise (top_n absent or
non-positive) a positive collection count is clamped into
[QUERY_TOP_N_MIN, QUERY_TOP_N_DEFAULT] — the upper bound is the default,
not the hard cap — and the fixed default is used when the count is
unavailable or non-positive. -/
theorem compute_n_results_spec (count top_n : Option ℤ) :
    (∀ t, top_n = some t → 0 < t →
       _compute_n_results count top_n = max QUERY_TOP_N_MIN (min t QUERY_TOP_N_CAP))
    ∧ ((top_n = none ∨ ∃ t, top_n = some t ∧ t ≤ 0) →
       (∀ c, count = some c → 0 < c →
          _compute_n_results count top_n = max QUERY_TOP_N_MIN (min c QUERY_TOP_N_DEFAULT))
       ∧ ((count = none ∨ ∃ c, count = some c ∧ c ≤ 0) →
          _compute_n_results count top_n = QUERY_TOP_N_DEFAULT)) := by
  constructor
  · rintro t rfl ht
    simp [_compute_n_results, ht]
  · rintro (rfl | ⟨t, rfl, ht⟩)
    · constructor
      · rintro c rfl hc
        simp [_compute_n_results, hc]
      · rintro (rfl | ⟨c, rfl, hc⟩)
        · simp [_compute_n_results]
        · simp [_compute_n_results, not_lt.mpr hc]
    · have ht' : ¬ (0 < t) := not_lt.mpr ht
      constructor
      · rintro c rfl hc
        simp [_compute_n_results, ht', hc]
      · rintro (rfl | ⟨c, rfl, hc⟩)
        · simp [_compute_n_results, ht']
        · simp [_compute_n_results, ht', not_lt.mpr hc]

/-- Witness for compute_n_results_spec: an explicit small top_n is raised to
the floor, and a negative count falls back to the default. -/
theorem compute_n_results_spec_witness :
    _compute_n_results (some 120) (some 7) = 50
    ∧ _compute_n_results (some (-3)) none = 1000 := by
  constructor
  · have h := (compute_n_results_spec (some 120) (some 7)).1 7 rfl (by norm_num)
    rw [h]
    decide
  · have h := ((compute_n_results_spec (some (-3)) none).2 (Or.inl rfl)).2
      (Or.inr ⟨-3, rfl, by norm_num⟩)
    rw [h]
    decide

/-- Boundary index of the most bucket. -/
def bTop {α : Type} (l : List α) : ℕ :=
  max 1 (pyRoundHalfEven ((l.length : ℚ) * 0.20)).toNat

/-- Boundary index of the similar bucket, clamped above the previous one. -/
def bSim {α : Type} (l : List α) : ℕ :=
  max (bTop l) (pyRoundHalfEven ((l.length : ℚ) * 0.50)).toNat

/-- Boundary index of the related bucket, clamped above the previous one. -/
def bRel {α : Type} (l : List α) : ℕ :=
  max (bSim l) (pyRoundHalfEven ((l.length : ℚ) * 0.80)).toNat

lemma bucket_eq {α : Type} (l : List α) (h : l.isEmpty = false) :
    _bucket_by_percentile l =
      ⟨l.take (bTop l), (l.take (bSim l)).drop (bTop l),
       (l.take (bRel l)).drop (bSim l), l.drop (bRel l)⟩ := by
  simp [_bucket_by_percentile, h, bTop, bSim, bRel]

lemma take_append_drop_take {α : Type} (a b : ℕ) (l : List α) (hab : a ≤ b) :
    l.take a ++ (l.take b).drop a = l.take b := by
  have h : l.take a = (l.take b).take a := by
    rw [List.take_take, min_eq_left hab]
  rw [h, List.take_append_drop]

lemma bucket_parts {α : Type} (l : List α) (a b c : ℕ) (hab : a ≤ b) (hbc : b ≤ c) :
    l.take a ++ (l.take b).drop a ++ (l.take c).drop b ++ l.drop c = l := by
  rw [show l.take a ++ (l.take b).drop a ++ (l.take c).drop b ++ l.drop c
      = (l.take a ++ (l.take b).drop a) ++ ((l.take c).drop b ++ l.drop c) by
    simp [List.append_assoc]]
  rw [take_append_drop_take a b l hab, ← List.append_assoc,
    take_append_drop_take b c l hbc, List.take_append_drop]

/-- C2: _bucket_by_percentile returns four lists whose in-order concatenation
is exactly the input (hence a positional partition with no gaps or
duplicates), whose lengths sum to N, and whose most bucket is non-empty
whenever the input is. -/
theorem bucket_by_percentile_partition {α : Type} (results : List α) :
    (_bucket_by_percentile results).most ++ (_bucket_by_percentile results).similar
      ++ (_bucket_by_percentile results).related ++ (_bucket_by_percentile results).loose
      = results
    ∧ (_bucket_by_percentile results).most.length
        + (_bucket_by_percentile results).similar.length
        + (_bucket_by_percentile results).related.length
        + (_bucket_by_percentile results).loose.length
      = results.length
    ∧ (results ≠ [] → (_bucket_by_percentile results).most ≠ []) := by
  by_cases hne : results = []
  · subst hne
    simp [_bucket_by_percentile]
  · have hb : results.isEmpty = false := by simpa [List.isEmpty_iff] using hne
    rw [bucket_eq results hb]
    have hconcat := bucket_parts results (bTop results) (bSim results) (bRel results)
      (le_max_left _ _) (le_max_left _ _)
    refine ⟨hconcat, ?_, fun _ => ?_⟩
    · have := congrArg List.length hconcat
      simpa [List.length_append, Nat.add_assoc] using this
    · have hlen : 0 < (results.take (bTop results)).length := by
        rw [List.length_take]
        exact lt_min (lt_of_lt_of_le one_pos (le_max_left 1 _)) (List.length_pos.mpr hne)
      exact List.length_pos.mp hlen

/-- Witness for bucket_by_percentile_partition on a concrete one-element
list. -/
theorem bucket_by_percentile_partition_witness :
    (_bucket_by_percentile [(0 : ℤ)]).most ++ (_bucket_by_percentile [(0 : ℤ)]).similar
      ++ (_bucket_by_percentile [(0 : ℤ)]).related ++ (_bucket_by_percentile [(0 : ℤ)]).loose
      = [(0 : ℤ)]
    ∧ (_bucket_by_percentile [(0 : ℤ)]).most ≠ [] := by
  exact ⟨(bucket_by_percentile_partition [(0 : ℤ)]).1,
    (bucket_by_percentile_partition [(0 : ℤ)]).2.2 (by simp)⟩

/-- C3: the gatherer output is sorted ascending by distance for every fetch
oracle and every simulated completion order. -/
theorem gather_contexts_sorted (maxSimilar : ℕ) (ht : String → String)
    (gl : ℤ → Option String) (fetch : ℤ → Nat → FetchAttempt)
    (order : List TicketContext → List TicketContext)
    (results : List SearchResult) (limit : Option ℤ) :
    List.Sorted (fun a b : TicketContext => a.distance ≤ b.distance)
      (gather_ticket_contexts maxSimilar ht gl fetch order results limit) := by
  haveI h1 : IsTotal TicketContext (fun a b : TicketContext => a.distance ≤ b.distance) :=
    ⟨fun a b => le_total _ _⟩
  haveI h2 : IsTrans TicketContext (fun a b : TicketContext => a.distance ≤ b.distance) :=
    ⟨fun _ _ _ hab hbc => le_trans hab hbc⟩
  simp only [gather_ticket_contexts]
  split
  · exact List.sorted_nil
  · exact List.sorted_insertionSort _ _

lemma ticketsToFetch_eq_filterMap (results : List SearchResult) : ∀ limit : ℕ,
    ticketsToFetch results limit
      = (results.filterMap
          (fun r => (resolvedTicketId r.2.1).map (fun tid => (tid, r)))).take limit := by
  induction results with
  | nil => intro limit; cases limit <;> simp [ticketsToFetch]
  | cons r rest ih =>
    intro limit
    cases limit with
    | zero => simp [ticketsToFetch]
    | succ m =>
      cases hres : resolvedTicketId r.2.1 with
      | none => simp [ticketsToFetch, hres, ih]
      | some tid => simp [ticketsToFetch, hres, ih]

/-- C10: the gatherer collection loop equals taking the first limit many
results with a resolvable ticket id (truthy and int-coercible): unresolvable
items are skipped without counting against the limit, and when no item is
resolvable the gatherer returns the empty list. -/
theorem gather_skips_unresolvable (results : List SearchResult) (limit : ℕ) :
    ticketsToFetch results limit
      = (results.filterMap
          (fun r => (resolvedTicketId r.2.1).map (fun tid => (tid, r)))).take limit
    ∧ ((∀ r ∈ results, resolvedTicketId r.2.1 = none) →
        ∀ (maxSimilar : ℕ) (ht : String → String) (gl : ℤ → Option String)
          (fetch : ℤ → Nat → FetchAttempt)
          (order : List TicketContext → List TicketContext) (lim : Option ℤ),
          gather_ticket_contexts maxSimilar ht gl fetch order results lim = []) := by
  refine ⟨ticketsToFetch_eq_filterMap results limit, fun hall maxSimilar ht gl fetch order lim => ?_⟩
  have hfm : results.filterMap
      (fun r => (resolvedTicketId r.2.1).map (fun tid => (tid, r))) = [] := by
    rw [List.filterMap_eq_nil_iff]
    intro r hr
    simp [hall r hr]
  simp [gather_ticket_contexts, ticketsToFetch_eq_filterMap, hfm]

/-- C10 witness inputs: one item whose ticket_id is the falsy integer 0 and
one whose ticket_id is missing; neither is resolvable. -/
def exResultsC10 : List SearchResult :=
  [("doc0", { ticket_id := .pyint 0 }, 1/10), ("doc1", { ticket_id := .pynone }, 1/5)]

/-- Witness for gather_skips_unresolvable: with only unresolvable items the
loop collects nothing and the gatherer returns the empty list. -/
theorem gather_skips_unresolvable_witness :
    ticketsToFetch exResultsC10 3 = []
    ∧ gather_ticket_contexts 5 id (fun _ => none) (fun _ _ => .failure) id
        exResultsC10 none = [] := by
  have h := gather_skips_unresolvable exResultsC10 3
  constructor
  · rw [h.1]
    decide
  · exact h.2 (by decide) 5 id (fun _ => none) (fun _ _ => .failure) id none

/-- C8 (counterexample): calling the gatherer with limit -1 on a result list
holding a perfectly fetchable item returns the empty list through the normal
return path — the model is total on this input because the source clamps a
negative limit to zero and has no raising path for it. -/
theorem gather_negative_limit_counterexample :
    gather_ticket_contexts 5 id (fun _ => none) (fun _ _ => .failure) id
      [("doc", { ticket_id := .pyint 7 }, 1)] (some (-1)) = [] := by
  decide

/-- C8 (amended): a negative limit is clamped to zero, so the gatherer
silently returns the empty list instead of failing fast with an error. -/
theorem gather_negative_limit (maxSimilar : ℕ) (ht : String → String)
    (gl : ℤ → Option String) (fetch : ℤ → Nat → FetchAttempt)
    (order : List TicketContext → List TicketContext)
    (results : List SearchResult) (l : ℤ) (hl : l < 0) :
    gather_ticket_contexts maxSimilar ht gl fetch order results (some l) = [] := by
  have h0 : safeLimit maxSimilar (some l) = 0 := by
    simp only [safeLimit]
    omega
  simp [gather_ticket_contexts, h0, ticketsToFetch]

/-- Witness for gather_negative_limit at limit -2. -/
theorem gather_negative_limit_witness :
    gather_ticket_contexts 5 id (fun _ => none) (fun _ _ => .failure) id
      [("doc", { ticket_id := .pyint 7 }, 1)] (some (-2)) = [] :=
  gather_negative_limit 5 id (fun _ => none) (fun _ _ => .failure) id
    [("doc", { ticket_id := .pyint 7 }, 1)] (-2) (by norm_num)

lemma fetch_ticket_context_error (ht : String → String) (gl : ℤ → Option String)
    (attempts : Nat → FetchAttempt) (dist : ℚ)
    (h : ∀ i, i < 3 → (attempts i).isSuccess = false) :
    _fetch_ticket_context ht gl attempts dist = .error () := by
  have h0 := h 0 (by norm_num)
  have h1 := h 1 (by norm_num)
  have h2 := h 2 (by norm_num)
  unfold _fetch_ticket_context
  cases ha0 : attempts 0 with
  | success t cs => rw [ha0] at h0; simp [FetchAttempt.isSuccess] at h0
  | _ =>
    cases ha1 : attempts 1 with
    | success t cs => rw [ha1] at h1; simp [FetchAttempt.isSuccess] at h1
    | _ =>
      cases ha2 : attempts 2 with
      | success t cs => rw [ha2] at h2; simp [FetchAttempt.isSuccess] at h2
      | _ => simp

lemma fetch_ticket_context_success (ht : String → String) (gl : ℤ → Option String)
    (attempts : Nat → FetchAttempt) (dist : ℚ) (t : FSTicket) (cs : List ApiConv)
    (i : Nat) (hi : i < 3)
    (hbefore : ∀ j, j < i → (attempts j).isSuccess = false)
    (hsucc : attempts i = .success t cs) :
    _fetch_ticket_context ht gl attempts dist
      = .ok (_build_context_from_api ht gl t cs dist) := by
  unfold _fetch_ticket_context
  interval_cases i
  · rw [hsucc]
  · have h0 := hbefore 0 (by norm_num)
    cases ha0 : attempts 0 with
    | success t0 cs0 => rw [ha0] at h0; simp [FetchAttempt.isSuccess] at h0
    | _ => rw [hsucc]
  · have h0 := hbefore 0 (by norm_num)
    have h1 := hbefore 1 (by norm_num)
    cases ha0 : attempts 0 with
    | success t0 cs0 => rw [ha0] at h0; simp [FetchAttempt.isSuccess] at h0
    | _ =>
      cases ha1 : attempts 1 with
      | success t1 cs1 => rw [ha1] at h1; simp [FetchAttempt.isSuccess] at h1
      | _ => rw [hsucc]

/-- C4: on a fetchable singleton result, when every one of the 3 attempts
for its ticket fails (rate-limit status or any other error) the gatherer
does not fail: it returns the metadata-built fallback context, which carries
notes_incomplete = true; and when some attempt at index below 3 succeeds
after only failed earlier attempts, the gatherer returns the context built
from the API payload, which carries notes_incomplete = false. -/
theorem gather_fetch_fallback (maxSimilar : ℕ) (ht : String → String)
    (gl : ℤ → Option String) (fetch : ℤ → Nat → FetchAttempt)
    (order : List TicketContext → List TicketContext)
    (horder : ∀ l, (order l).Perm l)
    (doc : String) (meta : Meta) (dist : ℚ) (tid : ℤ)
    (hres : resolvedTicketId meta = some tid)
    (limit : Option ℤ) (hlim : 0 < safeLimit maxSimilar limit) :
    ((∀ i, i < 3 → (fetch tid i).isSuccess = false) →
       gather_ticket_contexts maxSimilar ht gl fetch order [(doc, meta, dist)] limit
         = [_fallback_ticket_context ht doc meta dist]
       ∧ (_fallback_ticket_context ht doc meta dist).notes_incomplete = true)
    ∧ (∀ (t : FSTicket) (cs : List ApiConv) (i : Nat), i < 3 →
        (∀ j, j < i → (fetch tid j).isSuccess = false) →
        fetch tid i = .success t cs →
        gather_ticket_contexts maxSimilar ht gl fetch order [(doc, meta, dist)] limit
          = [_build_context_from_api ht gl t cs dist]
        ∧ (_build_context_from_api ht gl t cs dist).notes_incomplete = false) := by
  have htf : ticketsToFetch [(doc, meta, dist)] (safeLimit maxSimilar limit)
      = [(tid, (doc, meta, dist))] := by
    obtain ⟨m, hm⟩ : ∃ m, safeLimit maxSimilar limit = m + 1 :=
      ⟨_, (Nat.succ_pred_eq_of_pos hlim).symm⟩
    rw [hm]
    cases m <;> simp [ticketsToFetch, hres]
  have hgather : gather_ticket_contexts maxSimilar ht gl fetch order [(doc, meta, dist)] limit
      = [match _fetch_ticket_context ht gl (fetch tid) dist with
         | .ok c => c
         | .error _ => _fallback_ticket_context ht doc meta dist] := by
    simp only [gather_ticket_contexts, htf, List.isEmpty_cons, Bool.false_eq_true, if_false,
      List.map_cons, List.map_nil]
    rw [List.perm_singleton.mp (horder _)]
    rfl
  constructor
  · intro hfail
    have herr := fetch_ticket_context_error ht gl (fetch tid) dist hfail
    rw [hgather, herr]
    exact ⟨rfl, rfl⟩
  · intro t cs i hi hb hs
    have hok := fetch_ticket_context_success ht gl (fetch tid) dist t cs i hi hb hs
    rw [hgather, hok]
    exact ⟨rfl, rfl⟩

/-- C4 witness inputs: a minimal API payload and metadata for ticket 42. -/
def exTicketC4 : FSTicket := { id := some 42, subject := some "Printer jam" }

def exMetaC4 : Meta := { ticket_id := .pyint 42, subject := some "Printer jam" }

/-- C4 witness fetch oracle: HTTP 429 twice, success on the third attempt. -/
def exFetchC4 : ℤ → Nat → FetchAttempt :=
  fun _ i => if i = 2 then .success exTicketC4 [] else .http429

/-- Witness for gather_fetch_fallback: an always-failing fetch yields the
fallback context with notes_incomplete true, and a 429-429-success fetch
yields the API-built context with notes_incomplete false. -/
theorem gather_fetch_fallback_witness :
    (gather_ticket_contexts 5 id (fun _ => none) (fun _ _ => .failure) id
        [("doc", exMetaC4, 1)] none
      = [_fallback_ticket_context id "doc" exMetaC4 1]
     ∧ (_fallback_ticket_context id "doc" exMetaC4 1).notes_incomplete = true)
    ∧ (gather_ticket_contexts 5 id (fun _ => none) exFetchC4 id
        [("doc", exMetaC4, 1)] none
      = [_build_context_from_api id (fun _ => none) exTicketC4 [] 1]
     ∧ (_build_context_from_api id (fun _ => none) exTicketC4 [] 1).notes_incomplete = false) := by
  constructor
  · exact (gather_fetch_fallback 5 id (fun _ => none) (fun _ _ => .failure) id
      (fun l => List.Perm.refl l) "doc" exMetaC4 1 42 (by decide) none (by decide)).1
      (by intro i hi; rfl)
  · exact (gather_fetch_fallback 5 id (fun _ => none) exFetchC4 id
      (fun l => List.Perm.refl l) "doc" exMetaC4 1 42 (by decide) none (by decide)).2
      exTicketC4 [] 2 (by norm_num) (by decide) (by rfl)

lemma resolve_assigned_agent_eq_of_not_meaningful (fri : ℤ → Option ℤ) (fan : ℤ → String)
    (meta : Meta)
    (hguard : ¬ (pyStrip (meta.responder_name.getD "") ≠ ""
        ∧ pyLower (pyStrip (meta.responder_name.getD "")) ≠ "unknown"
        ∧ pyLower (pyStrip (meta.responder_name.getD "")) ≠ "unassigned")) :
    _resolve_assigned_agent fri fan meta =
      match (match meta.responder_id.toIntOpt with
             | some r => some r
             | none =>
               match meta.ticket_id.toIntOpt with
               | some tid => fri tid
               | none => none) with
      | none => meta
      | some r =>
        if (pyStrip (fan r) ≠ "" ∧ pyLower (pyStrip (fan r)) ≠ "unknown"
            ∧ pyLower (pyStrip (fan r)) ≠ "unassigned") then
          { meta with responder_name := some (pyStrip (fan r)) }
        else meta := by
  simp only [_resolve_assigned_agent]
  rw [if_neg hguard]

/-- C9: agent resolution leaves metadata carrying a meaningful
responder_name unchanged; whenever it changes responder_name the new value
is a non-empty name that is case-insensitively neither unknown nor
unassigned; and it never modifies any metadata field other than
responder_name. -/
theorem resolve_assigned_agent_spec (fri : ℤ → Option ℤ) (fan : ℤ → String) (meta : Meta) :
    ((pyStrip (meta.responder_name.getD "") ≠ ""
        ∧ pyLower (pyStrip (meta.responder_name.getD "")) ≠ "unknown"
        ∧ pyLower (pyStrip (meta.responder_name.getD "")) ≠ "unassigned") →
      _resolve_assigned_agent fri fan meta = meta)
    ∧ ((_resolve_assigned_agent fri fan meta).responder_name ≠ meta.responder_name →
        ∃ s, (_resolve_assigned_agent fri fan meta).responder_name = some s
          ∧ s ≠ "" ∧ pyLower s ≠ "unknown" ∧ pyLower s ≠ "unassigned")
    ∧ { meta with responder_name := (_resolve_assigned_agent fri fan meta).responder_name }
        = _resolve_assigned_agent fri fan meta := by
  by_cases hguard : (pyStrip (meta.responder_name.getD "") ≠ ""
      ∧ pyLower (pyStrip (meta.responder_name.getD "")) ≠ "unknown"
      ∧ pyLower (pyStrip (meta.responder_name.getD "")) ≠ "unassigned")
  · have hout : _resolve_assigned_agent fri fan meta = meta := by
      simp only [_resolve_assigned_agent]
      rw [if_pos hguard]
    refine ⟨fun _ => hout, fun h => absurd (by rw [hout]) h, ?_⟩
    rw [hout]
  · rw [resolve_assigned_agent_eq_of_not_meaningful fri fan meta hguard]
    cases hr : (match meta.responder_id.toIntOpt with
        | some r => some r
        | none =>
          match meta.ticket_id.toIntOpt with
          | some tid => fri tid
          | none => none) with
    | none => exact ⟨fun hm => absurd hm hguard, fun h => absurd rfl h, rfl⟩
    | some r =>
      dsimp only
      by_cases hres : (pyStrip (fan r) ≠ "" ∧ pyLower (pyStrip (fan r)) ≠ "unknown"
          ∧ pyLower (pyStrip (fan r)) ≠ "unassigned")
      · rw [if_pos hres]
        exact ⟨fun hm => absurd hm hguard,
          fun _ => ⟨pyStrip (fan r), rfl, hres.1, hres.2.1, hres.2.2⟩, rfl⟩
      · rw [if_neg hres]
        exact ⟨fun hm => absurd hm hguard, fun h => absurd rfl h, rfl⟩

/-- C9 witness input: metadata already carrying a meaningful agent name. -/
def exMetaC9 : Meta := { ticket_id := .pyint 1, responder_name := some "Alice" }

/-- Witness for resolve_assigned_agent_spec: a present meaningful name is
never overwritten, even by an oracle that would resolve a different name. -/
theorem resolve_assigned_agent_spec_witness :
    _resolve_assigned_agent (fun _ => some 9) (fun _ => "Bob") exMetaC9 = exMetaC9 := by
  exact (resolve_assigned_agent_spec (fun _ => some 9) (fun _ => "Bob") exMetaC9).1 (by decide)

end FreshService
